import Mathlib

/-!
# Verification of the tap-s3-csv sampling pipeline

Shallow embedding of `tap_s3_csv/s3.py`: file discovery
(`get_input_files_for_table`), candidate selection (`get_files_to_sample`),
format decoders (`get_records_for_csv` / `get_records_for_jsonl` /
`get_records_for_parquet`), the gzip unwrapper (`sampling_gz_file`), the
sampling orchestrator (`sample_files`) and the schema synthesis entry point
(`get_sampled_schema_for_table` with `merge_dicts`).

Modelling conventions:
* Python values flowing through the pipeline are modelled by `JsonValue`;
  Python dicts are ordered association lists (`PyDict`).
* Python exceptions are modelled by `PyErr`; a function that can raise
  returns `Except PyErr _`.  A lazy generator that yields some rows and may
  then raise is modelled by the pair of the yielded rows and an optional
  deferred error (`FileSampleResult`).
* The process-global `skipped_files_count` is threaded explicitly as a `Nat`
  (starting at 0 for one run of `get_sampled_schema_for_table`).
* External collaborators are modelled at their interfaces: the regular
  expression engine is an opaque `matcher : String → Bool`; the
  `singer_encodings.csv` row iterator is the `Option (List PyDict)` stored in
  a `FileContent.csv`; `compression.infer` returns the member list stored in
  a `FileContent.zipArchive`; timestamps are `Int` (only their order is used
  by the code under verification).
-/

/-- Python values (results of `json.loads`, csv row dicts, parquet rows,
schema dictionaries). -/
inductive JsonValue where
  | obj (fields : List (String × JsonValue))
  | arr (elems : List JsonValue)
  | str (s : String)
  | num (n : Int)
  | bool (b : Bool)
  | null

/-- A Python dict with string keys, as an ordered association list with
unique keys (insertion order, like a Python dict). -/
abbrev PyDict := List (String × JsonValue)

/-- Python exceptions that the code in `s3.py` can raise or catch. -/
inductive PyErr where
  | exception (msg : String)
  | nameError (name : String)
  | typeError (msg : String)
  | attributeError (msg : String)
  | unicodeDecodeError
  | jsonDecodeError

/-- Lookup in a Python dict (`d[k]` / `d.get(k)`). -/
def dictGet : PyDict → String → Option JsonValue
  | [], _ => none
  | (k', v) :: rest, k => if k' = k then some v else dictGet rest k

/-- Assignment `d[k] = v` in a Python dict: replaces the value in place when
the key exists, otherwise appends the new binding. -/
def dictSet : PyDict → String → JsonValue → PyDict
  | [], k, v => [(k, v)]
  | (k', v') :: rest, k, v =>
    if k' = k then (k, v) :: rest else (k', v') :: dictSet rest k v

/-- Deletion `d.pop(k)` in a Python dict (the key is assumed unique). -/
def dictRemove : PyDict → String → PyDict
  | [], _ => []
  | (k', v') :: rest, k =>
    if k' = k then rest else (k', v') :: dictRemove rest k

/-- Python truthiness of a value. -/
def pyTruthy : JsonValue → Bool
  | JsonValue.obj fields => !fields.isEmpty
  | JsonValue.arr elems => !elems.isEmpty
  | JsonValue.str s => !(s == "")
  | JsonValue.num n => !(n == 0)
  | JsonValue.bool b => b
  | JsonValue.null => false

/-- Python `len(v)`: defined for dicts, lists and strings; raises `TypeError`
for numbers, booleans and `None`. -/
def pyLen : JsonValue → Except PyErr Nat
  | JsonValue.obj fields => Except.ok fields.length
  | JsonValue.arr elems => Except.ok elems.length
  | JsonValue.str s => Except.ok s.length
  | JsonValue.num _ => Except.error (PyErr.typeError "object of type int has no len")
  | JsonValue.bool _ => Except.error (PyErr.typeError "object of type bool has no len")
  | JsonValue.null => Except.error (PyErr.typeError "object of type NoneType has no len")

/-- One raw line of a JSONL byte stream, abstracted at the interfaces of the
external collaborators `bytes.decode` and `json.loads`:
`undecodable` raises `UnicodeDecodeError` on `.decode`, `blank` strips to an
empty string, `invalid` raises `json.decoder.JSONDecodeError`, and
`value v` parses to the JSON value `v`. -/
inductive JsonLine where
  | undecodable
  | blank
  | invalid
  | value (v : JsonValue)

/-- Contents of a bucket object or archive member, abstracted at the
interfaces of the external decoding collaborators.  `csv iter` holds the
result of `singer_encodings.csv.get_row_iterator` (`none` models the falsy
iterator returned for an empty input); `parquet` holds the row groups of the
pyarrow file with each row already transposed into its dict; `gzipped` holds
the gzip header's optional original-file-name field and the decompressed
payload; `zipArchive` holds the member (name, content) pairs returned by
`compression.infer`. -/
inductive FileContent where
  | csv (iter : Option (List PyDict))
  | jsonl (lines : List JsonLine)
  | parquet (row_groups : List (List JsonValue))
  | gzipped (orig_name : Option String) (inner : FileContent)
  | zipArchive (members : List (String × FileContent))
  | raw

/-- A readable file object together with its `.name` attribute (used for zip
members and gzip payloads). -/
structure FileHandle where
  name : String
  content : FileContent

/-- A bucket object as seen by the lister, together with its content (the
model of `get_file_handle`). -/
structure S3Object where
  key : String
  size : Nat
  last_modified : Int
  content : FileContent

/-- One entry of the list built by `get_files_to_sample`: the dictionaries
`{"type": "unzipped", "s3_path": ..., "file_handle": ...}` and
`{"s3_path": ..., "file_handle": ..., "extension": ...}`. -/
structure Candidate where
  s3_path : String
  file_handle : FileHandle
  ftype : Option String
  extension : Option String

/-- The per-table configuration (`table_spec`) consumed by the sampler. -/
structure TableSpec where
  table_name : String
  search_pattern : String
  key_properties : List String
  date_overrides : List String

/-- The tap configuration keys consumed by the sampling pipeline. -/
structure S3Config where
  bucket : String
  start_date : Int
  end_date : Option Int
  max_sample_files : Option Nat

/-- The schema object returned by `get_sampled_schema_for_table`. -/
structure Schema where
  ty : String
  properties : PyDict

/-- The value of one `sample_file` call: the rows its lazy sequence yields,
plus an error the sequence raises after those rows when the consumer keeps
pulling (`none` when the sequence just ends). -/
structure FileSampleResult where
  rows : List JsonValue
  err : Option PyErr

/-- The observable outcome of one `sample_files` run: rows delivered to the
consumer, an uncaught error that aborted the run (if any), and the final
value of the skip counter. -/
structure SamplingOutcome where
  rows : List JsonValue
  err : Option PyErr
  skip : Nat

/-- The `OTHER_FILES` list of supported plain extensions in
`get_files_to_sample`. -/
def OTHER_FILES : List String := ["csv", "gz", "jsonl", "txt", "parquet"]

/-- Python `str.lower()` (ASCII view, as used on file names). -/
def pyLower (s : String) : String :=
  ⟨s.data.map Char.toLower⟩

/-- Python `str.endswith(suffix)`. -/
def pyEndsWith (s suffix : String) : Bool :=
  List.isSuffixOf suffix.data s.data

/-- Splitting a character list on a separator character (helper for
`pySplit`). -/
def splitCharsAux (sep : Char) : List Char → List Char → List (List Char)
  | [], cur => [cur.reverse]
  | c :: cs, cur =>
    if c = sep then cur.reverse :: splitCharsAux sep cs []
    else splitCharsAux sep cs (c :: cur)

/-- Python `str.split(sep)` for a one-character separator. -/
def pySplit (s : String) (sep : Char) : List String :=
  (splitCharsAux sep s.data []).map (fun cs => ⟨cs⟩)

/-- Trailing path component: `file_key.split("/").pop()`. -/
def file_name_of (key : String) : String :=
  (pySplit key '/').getLastD ""

/-- Extension of a file name: `file_name.split(".").pop().lower()`. -/
def extension_of (name : String) : String :=
  pyLower ((pySplit name '.').getLastD "")

/-- Loop of `get_records_for_csv` (lines 127-150 of `s3.py`): skips rows of
length 0, keeps every row whose running row counter is divisible by the
sample rate, pops a truthy `_sdc_extra` column before yielding, and advances
the counter on every row. -/
def csvLoop (sample_rate : Nat) : List PyDict → Nat → List JsonValue
  | [], _ => []
  | row :: rest, current_row =>
    if row.length = 0 then
      csvLoop sample_rate rest (current_row + 1)
    else if current_row % sample_rate = 0 then
      let row' :=
        match dictGet row "_sdc_extra" with
        | some v => if pyTruthy v then dictRemove row "_sdc_extra" else row
        | none => row
      JsonValue.obj row' :: csvLoop sample_rate rest (current_row + 1)
    else
      csvLoop sample_rate rest (current_row + 1)

/-- `get_records_for_csv`: the CSV/TXT decoder applied to the rows produced
by the external row iterator. -/
def get_records_for_csv (sample_rate : Nat) (rows : List PyDict) : List JsonValue :=
  csvLoop sample_rate rows 0

/-- Loop of `get_records_for_jsonl` (lines 153-179 of `s3.py`).  Rows at a
non-sampled index are not even decoded; at a sampled index the line is
decoded, stripped, parsed, and tested with `len(row) == 0` — which raises
`TypeError` for a bare scalar.  Yields rows until the first raised error;
every processed line advances the row counter by exactly one. -/
def jsonlLoop (sample_rate : Nat) : List JsonLine → Nat → List JsonValue × Option PyErr
  | [], _ => ([], none)
  | l :: rest, current_row =>
    if current_row % sample_rate = 0 then
      match l with
      | JsonLine.undecodable => ([], some PyErr.unicodeDecodeError)
      | JsonLine.blank => jsonlLoop sample_rate rest (current_row + 1)
      | JsonLine.invalid => ([], some PyErr.jsonDecodeError)
      | JsonLine.value v =>
        match pyLen v with
        | Except.error e => ([], some e)
        | Except.ok 0 => jsonlLoop sample_rate rest (current_row + 1)
        | Except.ok (_ + 1) =>
          let r := jsonlLoop sample_rate rest (current_row + 1)
          (v :: r.1, r.2)
    else
      jsonlLoop sample_rate rest (current_row + 1)

/-- `get_records_for_jsonl`: rows yielded by the JSONL decoder, paired with
the error it raises mid-stream (if any). -/
def get_records_for_jsonl (sample_rate : Nat) (lines : List JsonLine) :
    List JsonValue × Option PyErr :=
  jsonlLoop sample_rate lines 0

/-- Loop of `get_records_for_parquet` (lines 199-209 of `s3.py`), transcribed
faithfully: `current_row += 1` appears only inside the
`current_row % sample_rate == 0` branch, so a row that is not sampled does
not advance the row counter. -/
def parquetLoop (sample_rate : Nat) : List JsonValue → Nat → List JsonValue
  | [], _ => []
  | row :: rest, current_row =>
    if current_row % sample_rate = 0 then
      row :: parquetLoop sample_rate rest (current_row + 1)
    else
      parquetLoop sample_rate rest current_row

/-- `get_records_for_parquet`: iterates the row groups of the parquet file in
order (row group, then batch, then row — a flattening) and applies the
sampling loop. -/
def get_records_for_parquet (sample_rate : Nat) (row_groups : List (List JsonValue)) :
    List JsonValue :=
  parquetLoop sample_rate row_groups.flatten 0

/-- Key-collection loop of
`check_key_properties_and_date_overrides_for_jsonl_file` (lines 216-223):
reads records one by one from the (tee-copied) sample stream, unioning their
keys, breaking after 5001 processed records.  `streamErr` is the error that
the underlying record stream raises after `records` has been exhausted: the
loop hits it only when it pulls past the end before breaking.  A record that
is not a dict makes `record.keys()` raise `AttributeError`. -/
def collect_keys : List JsonValue → Option PyErr → Nat → List String →
    Except PyErr (List String)
  | [], none, _, acc => Except.ok acc
  | [], some e, _, _ => Except.error e
  | r :: rest, streamErr, rows, acc =>
    match r with
    | JsonValue.obj fields =>
      let acc' := acc ++ fields.map Prod.fst
      if 5000 < rows + 1 then Except.ok acc'
      else collect_keys rest streamErr (rows + 1) acc'
    | _ => Except.error (PyErr.attributeError "keys")

/-- `check_key_properties_and_date_overrides_for_jsonl_file`: after collecting
the keys of up to 5001 sampled records, every declared `key_properties` field
and every declared `date_overrides` field must appear among them, otherwise an
`Exception` naming the file and the missing fields is raised. -/
def check_key_properties_and_date_overrides_for_jsonl_file (table_spec : TableSpec)
    (records : List JsonValue) (streamErr : Option PyErr) (s3_path : String) :
    Except PyErr Unit :=
  match collect_keys records streamErr 0 [] with
  | Except.error e => Except.error e
  | Except.ok all_keys =>
    if !table_spec.key_properties.isEmpty &&
        !(table_spec.key_properties.all (fun k => all_keys.contains k)) then
      Except.error (PyErr.exception
        ("JSONL/parquet file " ++ s3_path ++ " is missing required key_properties key: " ++
          String.intercalate ", "
            (table_spec.key_properties.filter (fun k => !(all_keys.contains k)))))
    else if !table_spec.date_overrides.isEmpty &&
        !(table_spec.date_overrides.all (fun k => all_keys.contains k)) then
      Except.error (PyErr.exception
        ("JSONL/parquet file " ++ s3_path ++ " is missing date_overrides key: " ++
          String.intercalate ", "
            (table_spec.date_overrides.filter (fun k => !(all_keys.contains k)))))
    else
      Except.ok ()

/-- Modelled from the spec: `utils.get_file_name_from_gzfile` (file
`tap_s3_csv/utils.py`, which is not included under `src/`) reads the gzip
header's embedded original-file-name field.  Per the spec (section 4.4) a
stream whose original-filename metadata is absent — as produced by
`gzip --no-name` or tar-gzip — leads to the skip handled by the
`except AttributeError` branch of `sampling_gz_file`, so the model raises
`AttributeError` exactly when the field is absent and returns the name
otherwise. -/
def get_file_name_from_gzfile : FileContent → Except PyErr String
  | FileContent.gzipped none _ =>
    Except.error (PyErr.attributeError "gzip stream has no original file name")
  | FileContent.gzipped (some n) _ => Except.ok n
  | _ => Except.error (PyErr.exception "not a gzip stream")

/-- `sampling_gz_file` (lines 238-267 of `s3.py`).  `.tar.gz` paths and
unnamed or doubly-compressed gzip payloads are skipped (skip counter +1,
empty result, no exception).  When a usable inner name is recovered, the
source forwards to `sample_file` — but passes only 6 of its 7 required
positional arguments (`s3_bucket` is absent from the call on line 265), so
Python raises `TypeError` before any recursion happens; the model returns
that error directly.  An empty (falsy) recovered name reaches the final
`raise Exception` on line 267. -/
def sampling_gz_file (table_spec : TableSpec) (s3_path : String)
    (file_handle : FileHandle) (sample_rate : Nat) (config : S3Config)
    (skip : Nat) : Except PyErr (FileSampleResult × Nat) :=
  if pyEndsWith s3_path ".tar.gz" then
    Except.ok (⟨[], none⟩, skip + 1)
  else
    match get_file_name_from_gzfile file_handle.content with
    | Except.error (PyErr.attributeError _) => Except.ok (⟨[], none⟩, skip + 1)
    | Except.error e => Except.error e
    | Except.ok gz_file_name =>
      if gz_file_name = "" then
        Except.error (PyErr.exception (s3_path ++ " file has some errors"))
      else if pyEndsWith gz_file_name ".gz" then
        Except.ok (⟨[], none⟩, skip + 1)
      else
        Except.error
          (PyErr.typeError "sample_file missing 1 required positional argument: config")

/-- `sample_file` (lines 277-334 of `s3.py`): dispatch on the extension
string.  The parquet branch (line 325) passes the undefined name
`jsonl_sample_records` to the validation helper, so evaluating that argument
raises `NameError` for every non-empty parquet file; the model raises it at
the same point. -/
def sample_file (table_spec : TableSpec) (s3_bucket s3_path : String)
    (file_handle : FileHandle) (sample_rate : Nat) (extension : String)
    (config : S3Config) (skip : Nat) : Except PyErr (FileSampleResult × Nat) :=
  if extension = "" ∨ pyLower s3_path = extension then
    Except.ok (⟨[], none⟩, skip + 1)
  else if extension = "csv" ∨ extension = "txt" then
    match file_handle.content with
    | FileContent.csv none => Except.ok (⟨[], none⟩, skip + 1)
    | FileContent.csv (some rows) =>
      Except.ok (⟨get_records_for_csv sample_rate rows, none⟩, skip)
    | _ => Except.error PyErr.unicodeDecodeError
  else if extension = "gz" then
    sampling_gz_file table_spec s3_path file_handle sample_rate config skip
  else if extension = "jsonl" then
    match file_handle.content with
    | FileContent.jsonl lines =>
      (match get_records_for_jsonl sample_rate lines with
       | ([], none) => Except.ok (⟨[], none⟩, skip + 1)
       | ([], some e) => Except.error e
       | (r :: rs, streamErr) =>
         match check_key_properties_and_date_overrides_for_jsonl_file table_spec
             (r :: rs) streamErr s3_path with
         | Except.error e => Except.error e
         | Except.ok _ => Except.ok (⟨r :: rs, streamErr⟩, skip))
    | _ => Except.error PyErr.jsonDecodeError
  else if extension = "parquet" then
    match file_handle.content with
    | FileContent.parquet row_groups =>
      (match get_records_for_parquet sample_rate row_groups with
       | [] => Except.ok (⟨[], none⟩, skip + 1)
       | _ :: _ => Except.error (PyErr.nameError "jsonl_sample_records"))
    | _ => Except.error (PyErr.exception "invalid parquet file")
  else if extension = "zip" then
    Except.ok (⟨[], none⟩, skip + 1)
  else
    Except.ok (⟨[], none⟩, skip + 1)

/-- Loop of `get_files_to_sample` (lines 357-388 of `s3.py`): walks the
filtered objects, stopping once `max_files` candidates have been
accumulated, skipping extensionless / degenerate names, `.tar.gz` objects and
unsupported extensions, expanding a zip object into its supported members
(tagged `"unzipped"`) — which can push the accumulator past `max_files` —
and keeping other supported extensions as direct candidates. -/
def filesToSampleLoop (max_files : Nat) :
    List S3Object → List Candidate → Nat → List Candidate × Nat
  | [], acc, skip => (acc, skip)
  | o :: rest, acc, skip =>
    if max_files ≤ acc.length then (acc, skip)
    else if o.key = "" then filesToSampleLoop max_files rest acc skip
    else
      let fn := file_name_of o.key
      let ext := extension_of fn
      if ext = "" ∨ pyLower fn = ext then
        filesToSampleLoop max_files rest acc (skip + 1)
      else if pyEndsWith o.key ".tar.gz" then
        filesToSampleLoop max_files rest acc (skip + 1)
      else if ext = "zip" then
        let members :=
          match o.content with
          | FileContent.zipArchive ms => ms
          | _ => []
        let kept := members.filter (fun m =>
          OTHER_FILES.contains (extension_of m.1) && !(pyEndsWith m.1 ".tar.gz"))
        filesToSampleLoop max_files rest
          (acc ++ kept.map (fun m => ⟨o.key, ⟨m.1, m.2⟩, some "unzipped", none⟩)) skip
      else if OTHER_FILES.contains ext then
        filesToSampleLoop max_files rest
          (acc ++ [⟨o.key, ⟨fn, o.content⟩, none, some ext⟩]) skip
      else
        filesToSampleLoop max_files rest acc (skip + 1)

/-- `get_files_to_sample`: candidate list and updated skip counter. -/
def get_files_to_sample (s3_files : List S3Object) (max_files : Nat)
    (skip : Nat) : List Candidate × Nat :=
  filesToSampleLoop max_files s3_files [] skip

/-- Orchestration loop of `sample_files` (lines 398-423): for each candidate,
recover the path and extension (appending the member name for `"unzipped"`
candidates), call `sample_file`, and stream at most `max_records` rows from
its result.  `UnicodeDecodeError` and `json.decoder.JSONDecodeError` are
caught (skip counter +1, run continues); any other error aborts the run.  A
deferred stream error is only reached when the decoder's sequence is
exhausted before the `max_records` cap. -/
def sampleFilesLoop (config : S3Config) (table_spec : TableSpec)
    (sample_rate max_records : Nat) :
    List Candidate → Nat → List JsonValue → SamplingOutcome
  | [], skip, acc => ⟨acc, none, skip⟩
  | c :: rest, skip, acc =>
    let unzipped : Bool :=
      match c.ftype with
      | some t => t = "unzipped"
      | none => false
    let s3_path := if unzipped then c.s3_path ++ "/" ++ c.file_handle.name else c.s3_path
    let ext := if unzipped then extension_of c.file_handle.name else c.extension.getD ""
    match sample_file table_spec config.bucket s3_path c.file_handle sample_rate ext
        config skip with
    | Except.error e =>
      (match e with
       | PyErr.unicodeDecodeError =>
         sampleFilesLoop config table_spec sample_rate max_records rest (skip + 1) acc
       | PyErr.jsonDecodeError =>
         sampleFilesLoop config table_spec sample_rate max_records rest (skip + 1) acc
       | _ => ⟨acc, some e, skip⟩)
    | Except.ok (res, skip') =>
      let acc' := acc ++ res.rows.take max_records
      match res.err with
      | some e =>
        if res.rows.length < max_records then
          (match e with
           | PyErr.unicodeDecodeError =>
             sampleFilesLoop config table_spec sample_rate max_records rest (skip' + 1) acc'
           | PyErr.jsonDecodeError =>
             sampleFilesLoop config table_spec sample_rate max_records rest (skip' + 1) acc'
           | _ => ⟨acc', some e, skip'⟩)
        else
          sampleFilesLoop config table_spec sample_rate max_records rest skip' acc'
      | none => sampleFilesLoop config table_spec sample_rate max_records rest skip' acc'

/-- `sample_files` (lines 392-423): effective `max_files` comes from the
`max_sample_files` configuration key with the parameter as default; the
candidate list is truncated by `itertools.islice(..., max_files)` and each
file's rows by `islice(..., max_records)`. -/
def sample_files (config : S3Config) (table_spec : TableSpec)
    (s3_files : List S3Object) (sample_rate max_records max_files : Nat)
    (skip : Nat) : SamplingOutcome :=
  let mf := config.max_sample_files.getD max_files
  let p := get_files_to_sample s3_files mf skip
  sampleFilesLoop config table_spec sample_rate max_records (p.1.take mf) p.2 []

/-- Window test of `get_input_files_for_table` (lines 460-461): strict
comparisons on both bounds (`modified_since < last_modified` and
`last_modified < modified_until`), each skipped when the bound is absent. -/
def inWindow (modified_since modified_until : Option Int) (lm : Int) : Bool :=
  (match modified_since with
   | none => true
   | some t => decide (t < lm)) &&
  (match modified_until with
   | none => true
   | some t => decide (lm < t))

/-- Loop of `get_input_files_for_table` (lines 448-476): zero-byte objects are
skipped (skip counter +1) before the pattern is tried; a key matching the
pattern increments the matched counter and is yielded when it falls inside
the window.  Returns (yielded objects, matched count, skip counter). -/
def inputFilesLoop (matcher : String → Bool)
    (modified_since modified_until : Option Int) :
    List S3Object → Nat → Nat → List S3Object × Nat × Nat
  | [], matched, skip => ([], matched, skip)
  | o :: rest, matched, skip =>
    if o.size = 0 then
      inputFilesLoop matcher modified_since modified_until rest matched (skip + 1)
    else if matcher o.key then
      let r := inputFilesLoop matcher modified_since modified_until rest (matched + 1) skip
      if inWindow modified_since modified_until o.last_modified then
        (o :: r.1, r.2)
      else
        r
    else
      inputFilesLoop matcher modified_since modified_until rest matched skip

/-- `get_input_files_for_table`, fully consumed: after the listing is
exhausted, a matched count of zero raises the no-match `Exception` naming the
pattern (line 479). -/
def get_input_files_for_table (matcher : String → Bool) (pattern : String)
    (modified_since modified_until : Option Int) (objects : List S3Object)
    (skip : Nat) : Except PyErr (List S3Object × Nat) :=
  let r := inputFilesLoop matcher modified_since modified_until objects 0 skip
  if r.2.1 = 0 then
    Except.error (PyErr.exception ("No files found matching pattern " ++ pattern))
  else
    Except.ok (r.1, r.2.2)

mutual

/-- Key loop of `merge_dicts(first, second)` (lines 111-124): iterate the
keys of `second`, threading the accumulator `to_return` (initially a copy of
`first`), assigning each key its merged value. -/
def mergeLoop (first : PyDict) : List (String × JsonValue) → PyDict → PyDict
  | [], acc => acc
  | (k, v) :: rest, acc =>
    mergeLoop first rest (dictSet acc k (mergeVal (dictGet first k) v))

/-- Merged value for one key of `second`: when the key also lives in `first`
(`fv` is its value there) and both values are dicts they are merged
recursively, otherwise the value from `second` wins. -/
def mergeVal (fv : Option JsonValue) : JsonValue → JsonValue
  | JsonValue.obj sf =>
    (match fv with
     | some (JsonValue.obj ff) => JsonValue.obj (mergeLoop ff sf ff)
     | _ => JsonValue.obj sf)
  | v => v

end

/-- `merge_dicts`. -/
def merge_dicts (first second : PyDict) : PyDict :=
  mergeLoop first second first

/-- The fixed `metadata_schema` of `get_sampled_schema_for_table`
(lines 96-102). -/
def metadata_schema : PyDict :=
  [("_sdc_source_bucket", JsonValue.obj [("type", JsonValue.str "string")]),
   ("_sdc_source_file", JsonValue.obj [("type", JsonValue.str "string")]),
   ("_sdc_source_lineno", JsonValue.obj [("type", JsonValue.str "integer")]),
   ("_sdc_extra", JsonValue.obj
     [("type", JsonValue.str "array"),
      ("items", JsonValue.obj
        [("anyOf", JsonValue.arr
          [JsonValue.obj
            [("type", JsonValue.str "object"), ("properties", JsonValue.obj [])],
           JsonValue.obj [("type", JsonValue.str "string")]])])])]

/-- Value at a fixed metadata key after `merge_dicts(data_schema,
metadata_schema)`: the metadata descriptor `mv`, except when the inferred
value at the same key is itself a dict, in which case the two are merged
recursively. -/
def metaFieldMerge (data : PyDict) (k : String) (mv : PyDict) : JsonValue :=
  mergeVal (dictGet data k) (JsonValue.obj mv)

/-- `get_sampled_schema_for_table` (lines 75-109): list the bucket, filter by
pattern and window (`start_date` inclusive-intent lower bound, optional
`end_date` upper bound), sample, and synthesize.  An empty sample list
returns the accept-everything schema with empty properties; otherwise the
schema generated from the samples (`conversion.generate_schema`, an external
collaborator passed in as `generate_schema`) is merged with the fixed
metadata fields.  The run's skip counter starts at 0 and is returned for the
final warning. -/
def get_sampled_schema_for_table (generate_schema : List JsonValue → PyDict)
    (matcher : String → Bool) (config : S3Config) (table_spec : TableSpec)
    (objects : List S3Object) : Except PyErr (Schema × Nat) :=
  match get_input_files_for_table matcher table_spec.search_pattern
      (some config.start_date) config.end_date objects 0 with
  | Except.error e => Except.error e
  | Except.ok (files, skip1) =>
    match sample_files config table_spec files 5 1000 5 skip1 with
    | ⟨_, some e, _⟩ => Except.error e
    | ⟨[], none, sk⟩ => Except.ok (⟨"object", []⟩, sk)
    | ⟨r :: rs, none, sk⟩ =>
      Except.ok (⟨"object", merge_dicts (generate_schema (r :: rs)) metadata_schema⟩, sk)

/-! ## Theorems -/

/-- C1 (functional_correctness, code_bug): the spec requires the Parquet
decoder to keep every row whose 0-indexed position is divisible by the sample
rate — ceil(n/r) rows for n rows at rate r.  The code increments
`current_row` only when a row is sampled, so after the first yielded row the
counter sticks at 1 and, for any rate r ≥ 2, no further row is ever sampled:
on a 3-row file at rate 2 it yields 1 row where the spec requires 2 (indices
0 and 2). -/
theorem c1_parquet_decoder_yields_only_first_row :
    get_records_for_parquet 2 [[JsonValue.num 0, JsonValue.num 1, JsonValue.num 2]] =
      [JsonValue.num 0] ∧
    (get_records_for_parquet 2
      [[JsonValue.num 0, JsonValue.num 1, JsonValue.num 2]]).length ≠ 2 :=
  ⟨rfl, by decide⟩

/-- C2 (error_handling, code_bug): for a non-empty Parquet candidate, the
post-sample validation call on line 325 of `s3.py` names the undefined
variable `jsonl_sample_records`, so Python raises `NameError` — an unrelated
error — instead of the descriptive data-quality error, regardless of whether
the declared `key_properties` fields are present.  The JSONL half of the
claim does hold: a JSONL candidate missing a declared `key_properties` field
fails with the descriptive error naming the source path and the missing
field. -/
theorem c2_parquet_gate_raises_name_error :
    sample_file ⟨"t", "p", ["id"], []⟩ "bkt" "f.parquet"
        ⟨"f.parquet", FileContent.parquet [[JsonValue.obj [("a", JsonValue.num 1)]]]⟩
        5 "parquet" ⟨"bkt", 0, none, none⟩ 0 =
      Except.error (PyErr.nameError "jsonl_sample_records") ∧
    sample_file ⟨"t", "p", ["id"], []⟩ "bkt" "f.jsonl"
        ⟨"f.jsonl", FileContent.jsonl [JsonLine.value (JsonValue.obj [("a", JsonValue.num 1)])]⟩
        5 "jsonl" ⟨"bkt", 0, none, none⟩ 0 =
      Except.error (PyErr.exception
        "JSONL/parquet file f.jsonl is missing required key_properties key: id") :=
  ⟨rfl, rfl⟩

/-- C5 (error_handling, confirmed): a gzip stream whose embedded
original-filename metadata is absent is skipped by `sampling_gz_file`: it
returns an empty result, increments the skip counter by exactly one, and
raises no exception (the `AttributeError` from the header reader is caught).
The header reader itself lives in `utils.py` (not under `src/`) and is
modelled from the spec by `get_file_name_from_gzfile`. -/
theorem c5_unnamed_gzip_skipped (table_spec : TableSpec) (s3_path name : String)
    (inner : FileContent) (sample_rate : Nat) (config : S3Config) (skip : Nat)
    (h : pyEndsWith s3_path ".tar.gz" = false) :
    sampling_gz_file table_spec s3_path ⟨name, FileContent.gzipped none inner⟩
      sample_rate config skip = Except.ok (⟨[], none⟩, skip + 1) := by
  simp [sampling_gz_file, h, get_file_name_from_gzfile]

/-- C5 witness: a concrete unnamed gzip stream is skipped with skip counter
going from 0 to 1. -/
theorem c5_unnamed_gzip_skipped_witness :
    sampling_gz_file ⟨"t", "p", [], []⟩ "x.gz"
      ⟨"x.gz", FileContent.gzipped none FileContent.raw⟩ 5 ⟨"b", 0, none, none⟩ 0 =
      Except.ok (⟨[], none⟩, 1) :=
  c5_unnamed_gzip_skipped ⟨"t", "p", [], []⟩ "x.gz" "x.gz" FileContent.raw 5
    ⟨"b", 0, none, none⟩ 0 (by decide)

/-- C10 (safety, confirmed): a well-formed JSONL input whose sampled line is
a bare number parses to a JSON value without a length, so `len(row)` in the
JSONL decoder raises `TypeError`; `TypeError` is not among the exceptions the
orchestrator catches (`UnicodeDecodeError`, `JSONDecodeError`), so the whole
`sample_files` run aborts with that error — the skip counter is not
incremented and the file is not skipped. -/
theorem c10_jsonl_scalar_line_type_error_aborts :
    get_records_for_jsonl 5 [JsonLine.value (JsonValue.num 42)] =
      ([], some (PyErr.typeError "object of type int has no len")) ∧
    sample_files ⟨"b", 0, none, none⟩ ⟨"t", "p", [], []⟩
        [⟨"d.jsonl", 5, 1, FileContent.jsonl [JsonLine.value (JsonValue.num 42)]⟩]
        5 1000 5 0 =
      ⟨[], some (PyErr.typeError "object of type int has no len"), 0⟩ :=
  ⟨rfl, rfl⟩

/-- Looking up the key just written by `dictSet` returns the written value. -/
theorem dictGet_dictSet_self (d : PyDict) (k : String) (v : JsonValue) :
    dictGet (dictSet d k v) k = some v := by
  induction d with
  | nil => simp [dictSet, dictGet]
  | cons p rest ih =>
    obtain ⟨k0, v0⟩ := p
    by_cases h0 : k0 = k
    · subst h0; simp [dictSet, dictGet]
    · simp [dictSet, dictGet, h0, ih]

/-- `dictSet` leaves the binding of every other key unchanged. -/
theorem dictGet_dictSet_other (d : PyDict) (k k' : String) (v : JsonValue)
    (h : k ≠ k') : dictGet (dictSet d k v) k' = dictGet d k' := by
  induction d with
  | nil => simp [dictSet, dictGet, h]
  | cons p rest ih =>
    obtain ⟨k0, v0⟩ := p
    by_cases h0 : k0 = k
    · subst h0; simp [dictSet, dictGet, h]
    · by_cases h1 : k0 = k' <;> simp [dictSet, dictGet, h0, h1, ih, Ne.symm h]

/-- Unfolding `merge_dicts data metadata_schema`: the merged properties are
`data` updated at the four fixed metadata keys, each receiving its metadata
descriptor — recursively merged with the inferred value when that value is
itself a dict. -/
theorem merge_dicts_metadata (data : PyDict) :
    merge_dicts data metadata_schema =
      dictSet (dictSet (dictSet (dictSet data
        "_sdc_source_bucket"
          (metaFieldMerge data "_sdc_source_bucket" [("type", JsonValue.str "string")]))
        "_sdc_source_file"
          (metaFieldMerge data "_sdc_source_file" [("type", JsonValue.str "string")]))
        "_sdc_source_lineno"
          (metaFieldMerge data "_sdc_source_lineno" [("type", JsonValue.str "integer")]))
        "_sdc_extra"
          (metaFieldMerge data "_sdc_extra"
            [("type", JsonValue.str "array"),
             ("items", JsonValue.obj
               [("anyOf", JsonValue.arr
                 [JsonValue.obj
                   [("type", JsonValue.str "object"), ("properties", JsonValue.obj [])],
                  JsonValue.obj [("type", JsonValue.str "string")]])])]) :=
  rfl

/-- C4 counterexample (invariants, corrected): a completed run in which the
only matched file is skipped (unsupported extension) samples no rows, and
`get_sampled_schema_for_table` then returns the accept-everything schema with
empty properties — none of the four fixed metadata fields is present,
contradicting the claim's "including runs in which ... no rows were
sampled". -/
theorem c4_empty_run_lacks_metadata_fields :
    get_sampled_schema_for_table (fun _ => [("x", JsonValue.obj [])]) (fun _ => true)
        ⟨"b", 0, none, none⟩ ⟨"t", "p", [], []⟩ [⟨"data.xyz", 3, 5, FileContent.raw⟩] =
      Except.ok (⟨"object", []⟩, 1) ∧
    dictGet [] "_sdc_source_bucket" = none :=
  ⟨rfl, rfl⟩

/-- C4 (invariants, corrected): for every completed sampling run in which at
least one row was sampled, the schema returned by
`get_sampled_schema_for_table` contains all four fixed metadata fields in its
properties, and the value at each fixed metadata key is the metadata
descriptor itself unless the inferred value at that key is also a mapping, in
which case the two are merged recursively (`metaFieldMerge`).  When no rows
were sampled the code instead returns the empty-properties schema (see the
counterexample). -/
theorem c4_metadata_fields_present_when_rows_sampled
    (generate_schema : List JsonValue → PyDict) (matcher : String → Bool)
    (config : S3Config) (table_spec : TableSpec) (objects files : List S3Object)
    (skip1 : Nat)
    (hfiles : get_input_files_for_table matcher table_spec.search_pattern
        (some config.start_date) config.end_date objects 0 = Except.ok (files, skip1))
    (herr : (sample_files config table_spec files 5 1000 5 skip1).err = none)
    (hrows : (sample_files config table_spec files 5 1000 5 skip1).rows ≠ []) :
    get_sampled_schema_for_table generate_schema matcher config table_spec objects =
      Except.ok (⟨"object",
        merge_dicts
          (generate_schema (sample_files config table_spec files 5 1000 5 skip1).rows)
          metadata_schema⟩,
        (sample_files config table_spec files 5 1000 5 skip1).skip) ∧
    ∀ data : PyDict,
      dictGet (merge_dicts data metadata_schema) "_sdc_source_bucket" =
        some (metaFieldMerge data "_sdc_source_bucket" [("type", JsonValue.str "string")]) ∧
      dictGet (merge_dicts data metadata_schema) "_sdc_source_file" =
        some (metaFieldMerge data "_sdc_source_file" [("type", JsonValue.str "string")]) ∧
      dictGet (merge_dicts data metadata_schema) "_sdc_source_lineno" =
        some (metaFieldMerge data "_sdc_source_lineno" [("type", JsonValue.str "integer")]) ∧
      dictGet (merge_dicts data metadata_schema) "_sdc_extra" =
        some (metaFieldMerge data "_sdc_extra"
          [("type", JsonValue.str "array"),
           ("items", JsonValue.obj
             [("anyOf", JsonValue.arr
               [JsonValue.obj
                 [("type", JsonValue.str "object"), ("properties", JsonValue.obj [])],
                JsonValue.obj [("type", JsonValue.str "string")]])])]) := by
  constructor
  · unfold get_sampled_schema_for_table
    rw [hfiles]
    rcases hq : sample_files config table_spec files 5 1000 5 skip1 with ⟨rows, err, sk⟩
    rw [hq] at herr hrows
    simp only [] at herr hrows
    subst herr
    cases rows with
    | nil => exact absurd rfl hrows
    | cons r rs => simp only [hq]
  · intro data
    rw [merge_dicts_metadata data]
    refine ⟨?_, ?_, ?_, ?_⟩
    · rw [dictGet_dictSet_other _ _ _ _ (by decide), dictGet_dictSet_other _ _ _ _ (by decide),
        dictGet_dictSet_other _ _ _ _ (by decide), dictGet_dictSet_self]
    · rw [dictGet_dictSet_other _ _ _ _ (by decide), dictGet_dictSet_other _ _ _ _ (by decide),
        dictGet_dictSet_self]
    · rw [dictGet_dictSet_other _ _ _ _ (by decide), dictGet_dictSet_self]
    · rw [dictGet_dictSet_self]

/-- C4 witness: a concrete run sampling one CSV row, instantiating the
amended claim. -/
theorem c4_metadata_fields_present_witness :
    get_sampled_schema_for_table (fun _ => []) (fun _ => true) ⟨"b", 0, none, none⟩
        ⟨"t", "p", [], []⟩
        [⟨"a.csv", 4, 3, FileContent.csv (some [[("id", JsonValue.num 7)]])⟩] =
      Except.ok (⟨"object", merge_dicts [] metadata_schema⟩, 0) :=
  (c4_metadata_fields_present_when_rows_sampled (fun _ => []) (fun _ => true)
    ⟨"b", 0, none, none⟩ ⟨"t", "p", [], []⟩
    [⟨"a.csv", 4, 3, FileContent.csv (some [[("id", JsonValue.num 7)]])⟩]
    [⟨"a.csv", 4, 3, FileContent.csv (some [[("id", JsonValue.num 7)]])⟩] 0
    rfl rfl (fun h => List.noConfusion h)).1

/-- C6 counterexample (functional_correctness, corrected): a non-empty object
matching the pattern whose `last_modified` is exactly equal to the configured
`since` timestamp is NOT yielded by the filter (the comparison on line 460 is
`modified_since < last_modified`, strict), refuting the claimed inclusive
lower bound. -/
theorem c6_since_equal_object_not_yielded :
    get_input_files_for_table (fun _ => true) "p" (some 7) none
        [⟨"a.csv", 1, 7, FileContent.raw⟩] 0 =
      Except.ok ([], 0) :=
  rfl

/-- C6 (functional_correctness, corrected): the `since` timestamp is a
STRICT (exclusive) lower bound on object modification time: a matching
non-empty object is yielded exactly when `since < last_modified` (with no
`until` bound); in particular an object whose `last_modified` equals `since`
is not yielded. -/
theorem c6_since_is_strict_lower_bound (matcher : String → Bool)
    (pattern key : String) (sz : Nat) (lm t : Int) (content : FileContent)
    (skip : Nat) (hsz : sz ≠ 0) (hm : matcher key = true) :
    get_input_files_for_table matcher pattern (some t) none [⟨key, sz, lm, content⟩] skip =
      Except.ok (if t < lm then [⟨key, sz, lm, content⟩] else [], skip) := by
  by_cases hlt : t < lm <;>
    simp [get_input_files_for_table, inputFilesLoop, inWindow, hsz, hm, hlt]

/-- C6 witness: an object strictly inside the window is yielded. -/
theorem c6_since_is_strict_lower_bound_witness :
    get_input_files_for_table (fun _ => true) "p2" (some 5) none
        [⟨"b.csv", 2, 9, FileContent.raw⟩] 0 =
      Except.ok ([⟨"b.csv", 2, 9, FileContent.raw⟩], 0) := by
  have h := c6_since_is_strict_lower_bound (fun _ => true) "p2" "b.csv" 2 9 5
    FileContent.raw 0 (by decide) rfl
  simpa using h

/-- Matched-files counter of the filter loop: the initial count plus the
number of non-empty objects whose key matches the pattern (zero-byte objects
are skipped before the pattern is tried, so they never count). -/
theorem inputFilesLoop_matched (matcher : String → Bool) (ms mu : Option Int)
    (objects : List S3Object) (matched skip : Nat) :
    (inputFilesLoop matcher ms mu objects matched skip).2.1 =
      matched + objects.countP (fun o => !(o.size == 0) && matcher o.key) := by
  induction objects generalizing matched skip with
  | nil => simp [inputFilesLoop]
  | cons o rest ih =>
    by_cases hsz : o.size = 0
    · simp [inputFilesLoop, hsz, List.countP_cons, ih]
    · by_cases hm : matcher o.key
      · by_cases hw : inWindow ms mu o.last_modified <;>
          · simp [inputFilesLoop, hsz, hm, hw, List.countP_cons, ih]
            omega
      · simp [inputFilesLoop, hsz, hm, List.countP_cons, ih]

/-- C7 (error_handling, confirmed): the Pattern and Window Filter raises the
no-match error — whose message names the pattern — exactly when no listed
object ever matched the compiled pattern, counting only non-empty objects
(zero-byte objects are skipped, with the skip counter incremented, before
the match is counted).  Conversely, when at least one non-empty object
matches the pattern the filter returns normally, even when the time window
excludes every match. -/
theorem c7_no_match_error_raised_iff (matcher : String → Bool) (pattern : String)
    (ms mu : Option Int) (objects : List S3Object) (skip : Nat) :
    ((∀ o ∈ objects, o.size = 0 ∨ matcher o.key = false) →
      get_input_files_for_table matcher pattern ms mu objects skip =
        Except.error (PyErr.exception ("No files found matching pattern " ++ pattern))) ∧
    ((∃ o ∈ objects, o.size ≠ 0 ∧ matcher o.key = true) →
      ∃ yielded skip1,
        get_input_files_for_table matcher pattern ms mu objects skip =
          Except.ok (yielded, skip1)) := by
  constructor
  · intro h
    have hc : objects.countP (fun o => !(o.size == 0) && matcher o.key) = 0 := by
      rw [List.countP_eq_zero]
      intro o ho
      rcases h o ho with h1 | h1 <;> simp [h1]
    simp [get_input_files_for_table, inputFilesLoop_matched, hc]
  · intro h
    have hc : 0 < objects.countP (fun o => !(o.size == 0) && matcher o.key) := by
      rw [List.countP_pos_iff]
      rcases h with ⟨o, ho, h1, h2⟩
      exact ⟨o, ho, by simp [h1, h2]⟩
    have hne : (inputFilesLoop matcher ms mu objects 0 skip).2.1 ≠ 0 := by
      rw [inputFilesLoop_matched]
      omega
    exact ⟨(inputFilesLoop matcher ms mu objects 0 skip).1,
      (inputFilesLoop matcher ms mu objects 0 skip).2.2,
      by simp [get_input_files_for_table, hne]⟩

/-- C7 witness: a bucket whose only object does not match raises the
no-match error naming the pattern; a bucket with one matching non-empty
object outside the window does not raise. -/
theorem c7_no_match_error_raised_iff_witness :
    get_input_files_for_table (fun k => k == "a.csv") "pat" none none
        [⟨"b.txt", 3, 1, FileContent.raw⟩] 0 =
      Except.error (PyErr.exception ("No files found matching pattern " ++ "pat")) ∧
    (∃ yielded skip1,
      get_input_files_for_table (fun k => k == "a.csv") "pat2" (some 10) (some 20)
        [⟨"a.csv", 3, 1, FileContent.raw⟩] 0 = Except.ok (yielded, skip1)) :=
  ⟨(c7_no_match_error_raised_iff (fun k => k == "a.csv") "pat" none none
      [⟨"b.txt", 3, 1, FileContent.raw⟩] 0).1 (by decide),
   (c7_no_match_error_raised_iff (fun k => k == "a.csv") "pat2" (some 10) (some 20)
      [⟨"a.csv", 3, 1, FileContent.raw⟩] 0).2 (by decide)⟩

/-- C9 (functional_correctness, confirmed): a zip archive object with exactly
two members, one with a `.csv` extension and one with a `.exe` extension (in
either order), produces exactly one candidate file — the `.csv` member,
tagged `"unzipped"`; the `.exe` member is not kept. -/
theorem c9_zip_with_csv_and_exe_member (key n1 n2 : String) (c1 c2 : FileContent)
    (sz : Nat) (lm : Int) (max_files skip : Nat)
    (ms : List (String × FileContent))
    (hmax : 0 < max_files)
    (hkey0 : key ≠ "")
    (hkext : extension_of (file_name_of key) = "zip")
    (hkdeg : pyLower (file_name_of key) ≠ "zip")
    (hktar : pyEndsWith key ".tar.gz" = false)
    (hn1 : extension_of n1 = "csv")
    (hn1tar : pyEndsWith n1 ".tar.gz" = false)
    (hn2 : extension_of n2 = "exe")
    (hms : ms = [(n1, c1), (n2, c2)] ∨ ms = [(n2, c2), (n1, c1)]) :
    get_files_to_sample [⟨key, sz, lm, FileContent.zipArchive ms⟩] max_files skip =
      ([⟨key, ⟨n1, c1⟩, some "unzipped", none⟩], skip) := by
  have hmax' : ¬ max_files ≤ 0 := by omega
  rcases hms with h | h <;> subst h <;>
    simp [get_files_to_sample, filesToSampleLoop, hmax', hkey0, hkext, hkdeg, hktar,
      hn1, hn1tar, hn2, OTHER_FILES]

/-- C9 witness: a concrete two-member archive. -/
theorem c9_zip_with_csv_and_exe_member_witness :
    get_files_to_sample [⟨"archive.zip", 9, 1,
        FileContent.zipArchive [("a.csv", FileContent.raw), ("b.exe", FileContent.raw)]⟩] 5 0 =
      ([⟨"archive.zip", ⟨"a.csv", FileContent.raw⟩, some "unzipped", none⟩], 0) :=
  c9_zip_with_csv_and_exe_member "archive.zip" "a.csv" "b.exe" FileContent.raw
    FileContent.raw 9 1 5 0 [("a.csv", FileContent.raw), ("b.exe", FileContent.raw)]
    (by decide) (by decide) rfl (by decide) rfl rfl rfl rfl (Or.inl rfl)

/-- C3 counterexample (error_handling, corrected): with a single non-empty
`report.tar.gz` object matching the pattern, the run does NOT fail with the
no-match error: the object counts as a pattern match before the selector
skips it, so `get_sampled_schema_for_table` returns the empty-properties
schema with the skip counter at 1. -/
theorem c3_tar_gz_run_returns_empty_schema :
    get_sampled_schema_for_table (fun _ => [("x", JsonValue.obj [])])
        (fun k => k == "report.tar.gz") ⟨"b", 0, none, none⟩ ⟨"t", "report", [], []⟩
        [⟨"report.tar.gz", 10, 5, FileContent.raw⟩] =
      Except.ok (⟨"object", []⟩, 1) :=
  rfl

/-- C3 (error_handling, corrected): for every run whose bucket contains
exactly one object, non-empty, named `report.tar.gz`, matching the search
pattern and inside the time window, the sampling run skips that file and the
skip counter ends at 1 — but the run does NOT fail: it returns the
empty-properties schema, because the no-match error is raised only when no
object matched the pattern, and this object did match before being
skipped. -/
theorem c3_tar_gz_only_bucket_skips_without_error
    (generate_schema : List JsonValue → PyDict) (matcher : String → Bool)
    (config : S3Config) (table_spec : TableSpec) (sz : Nat) (lm : Int)
    (content : FileContent)
    (hsz : sz ≠ 0) (hm : matcher "report.tar.gz" = true)
    (hsince : config.start_date < lm) (huntil : config.end_date = none)
    (hmax : config.max_sample_files = none) :
    get_sampled_schema_for_table generate_schema matcher config table_spec
        [⟨"report.tar.gz", sz, lm, content⟩] =
      Except.ok (⟨"object", []⟩, 1) := by
  have h1 : get_input_files_for_table matcher table_spec.search_pattern
      (some config.start_date) config.end_date [⟨"report.tar.gz", sz, lm, content⟩] 0 =
      Except.ok ([⟨"report.tar.gz", sz, lm, content⟩], 0) := by
    simp [get_input_files_for_table, inputFilesLoop, inWindow, hsz, hm, hsince, huntil]
  have h2 : sample_files config table_spec [⟨"report.tar.gz", sz, lm, content⟩]
      5 1000 5 0 = ⟨[], none, 1⟩ := by
    unfold sample_files
    rw [hmax]
    rfl
  unfold get_sampled_schema_for_table
  rw [h1]
  simp only [h2]

/-- C3 witness: a concrete such run. -/
theorem c3_tar_gz_only_bucket_skips_without_error_witness :
    get_sampled_schema_for_table (fun _ => []) (fun _ => true) ⟨"b", 0, none, none⟩
        ⟨"t", "rep", [], []⟩ [⟨"report.tar.gz", 7, 4, FileContent.raw⟩] =
      Except.ok (⟨"object", []⟩, 1) :=
  c3_tar_gz_only_bucket_skips_without_error (fun _ => []) (fun _ => true)
    ⟨"b", 0, none, none⟩ ⟨"t", "rep", [], []⟩ 7 4 FileContent.raw
    (by decide) rfl (by decide) rfl rfl

/-- Per-candidate decomposition of the orchestration loop: the rows it
appends to `acc` split into one block per processed candidate, each block cut
to at most `max_records` rows by the `islice` cap. -/
theorem sampleFilesLoop_bound (config : S3Config) (table_spec : TableSpec)
    (sample_rate max_records : Nat) (cands : List Candidate) (skip : Nat)
    (acc : List JsonValue) :
    ∃ rowss : List (List JsonValue),
      (sampleFilesLoop config table_spec sample_rate max_records cands skip acc).rows =
        acc ++ rowss.flatten ∧
      rowss.length ≤ cands.length ∧
      ∀ rs ∈ rowss, rs.length ≤ max_records := by
  induction cands generalizing skip acc with
  | nil => exact ⟨[], by simp [sampleFilesLoop], by simp, by simp⟩
  | cons c rest ih =>
    simp only [sampleFilesLoop]
    split
    · split
      · obtain ⟨rowss, h1, h2, h3⟩ := ih _ acc
        exact ⟨rowss, h1, by simpa using Nat.le_succ_of_le h2, h3⟩
      · obtain ⟨rowss, h1, h2, h3⟩ := ih _ acc
        exact ⟨rowss, h1, by simpa using Nat.le_succ_of_le h2, h3⟩
      · exact ⟨[], by simp, by simp, by simp⟩
    · rename_i res skip' heq
      split
      · split
        · split
          · obtain ⟨rowss, h1, h2, h3⟩ := ih (skip' + 1) (acc ++ res.rows.take max_records)
            refine ⟨res.rows.take max_records :: rowss, by simp [h1], ?_, ?_⟩
            · simpa using Nat.succ_le_succ h2
            · intro rs hrs
              rcases List.mem_cons.mp hrs with h | h
              · subst h; exact List.length_take_le _ _
              · exact h3 rs h
          · obtain ⟨rowss, h1, h2, h3⟩ := ih (skip' + 1) (acc ++ res.rows.take max_records)
            refine ⟨res.rows.take max_records :: rowss, by simp [h1], ?_, ?_⟩
            · simpa using Nat.succ_le_succ h2
            · intro rs hrs
              rcases List.mem_cons.mp hrs with h | h
              · subst h; exact List.length_take_le _ _
              · exact h3 rs h
          · refine ⟨[res.rows.take max_records], by simp, by simp, ?_⟩
            intro rs hrs
            rcases List.mem_cons.mp hrs with h | h
            · subst h; exact List.length_take_le _ _
            · simp at h
        · obtain ⟨rowss, h1, h2, h3⟩ := ih skip' (acc ++ res.rows.take max_records)
          refine ⟨res.rows.take max_records :: rowss, by simp [h1], ?_, ?_⟩
          · simpa using Nat.succ_le_succ h2
          · intro rs hrs
            rcases List.mem_cons.mp hrs with h | h
            · subst h; exact List.length_take_le _ _
            · exact h3 rs h
      · obtain ⟨rowss, h1, h2, h3⟩ := ih skip' (acc ++ res.rows.take max_records)
        refine ⟨res.rows.take max_records :: rowss, by simp [h1], ?_, ?_⟩
        · simpa using Nat.succ_le_succ h2
        · intro rs hrs
          rcases List.mem_cons.mp hrs with h | h
          · subst h; exact List.length_take_le _ _
          · exact h3 rs h

/-- Total length of a flattened row decomposition whose blocks are all
bounded by `n`. -/
theorem flatten_length_le (rowss : List (List JsonValue)) (n : Nat)
    (h : ∀ rs ∈ rowss, rs.length ≤ n) :
    rowss.flatten.length ≤ rowss.length * n := by
  induction rowss with
  | nil => simp
  | cons a l ih =>
    simp only [List.flatten_cons, List.length_append, List.length_cons]
    have ha := h a (by simp)
    have hl := ih (fun rs hrs => h rs (by simp [hrs]))
    calc a.length + l.flatten.length ≤ n + l.length * n := Nat.add_le_add ha hl
    _ = (l.length + 1) * n := by ring

/-- C8 (invariants, confirmed): every `sample_files` run yields rows drawn
from at most `max_files` candidate files (the effective value of
`max_sample_files`, defaulting to the parameter), with at most `max_records`
rows per candidate, hence at most `max_files * max_records` rows in total —
even when zip expansion makes `get_files_to_sample` accumulate more than
`max_files` candidates, since the orchestrator truncates the candidate list
again. -/
theorem c8_sample_files_bounded (config : S3Config) (table_spec : TableSpec)
    (s3_files : List S3Object) (sample_rate max_records max_files skip : Nat) :
    ∃ rowss : List (List JsonValue),
      (sample_files config table_spec s3_files sample_rate max_records max_files
          skip).rows = rowss.flatten ∧
      rowss.length ≤ config.max_sample_files.getD max_files ∧
      (∀ rs ∈ rowss, rs.length ≤ max_records) ∧
      (sample_files config table_spec s3_files sample_rate max_records max_files
          skip).rows.length ≤ config.max_sample_files.getD max_files * max_records := by
  obtain ⟨rowss, h1, h2, h3⟩ := sampleFilesLoop_bound config table_spec sample_rate
    max_records
    ((get_files_to_sample s3_files (config.max_sample_files.getD max_files) skip).1.take
      (config.max_sample_files.getD max_files))
    (get_files_to_sample s3_files (config.max_sample_files.getD max_files) skip).2 []
  have hrows : (sample_files config table_spec s3_files sample_rate max_records max_files
      skip).rows = rowss.flatten := by
    simpa [sample_files] using h1
  have hlen : rowss.length ≤ config.max_sample_files.getD max_files :=
    le_trans h2 (List.length_take_le _ _)
  refine ⟨rowss, hrows, hlen, h3, ?_⟩
  rw [hrows]
  exact le_trans (flatten_length_le rowss max_records h3)
    (Nat.mul_le_mul_right _ hlen)
